import Mathlib

/-!
MCP3008 ADC driver (`mcp3008.c`): a shallow embedding

The driver talks to an 8-channel 10-bit ADC over SPI.  This file embeds

* `mcp3008_channel_to_tx_reg` and the static table `mcp3008_channels`,
* `mcp3008_spi_reg_read`, both as a function run by one caller and as a
  step function over which several callers can be interleaved,
* `mcp3008_read_raw` and the part of `mcp3008_spi_probe` that prepares the
  device instance,

and proves properties of them.

Conventions.  `u8` cells are `Nat` reduced `% 256` at every store,
`unsigned int` is `Nat` reduced `% 2 ^ 32`, `unsigned long` is `Nat` reduced
`% 2 ^ 64`, `int` and `long` are `Int`.  An out-parameter (`*val`, `*val2`)
is returned as `Option`: `none` when the function did not store through the
pointer, `some v` when it stored `v`.  What the kernel does behind
`spi_sync` and `regulator_get_voltage` is a parameter of the model.
-/

namespace MCP3008

/-! ## Constants -/

/-- Macro `MCP3008_CHANNELS`, defined as 8. -/
def MCP3008_CHANNELS : Nat := 8

/-- Macro `MCP3008_RESOLUTION`, defined as 10. -/
def MCP3008_RESOLUTION : Int := 10

/-- Kernel constant `IIO_VOLTAGE` of `enum iio_chan_type` (first enumerator). -/
def IIO_VOLTAGE : Nat := 0

/-- Kernel constant `IIO_CHAN_INFO_RAW` of `enum iio_chan_info_enum`. -/
def IIO_CHAN_INFO_RAW : Int := 0

/-- Kernel constant `IIO_CHAN_INFO_SCALE` of `enum iio_chan_info_enum`. -/
def IIO_CHAN_INFO_SCALE : Int := 2

/-- Kernel constant `IIO_VAL_INT` (`include/linux/iio/types.h`). -/
def IIO_VAL_INT : Int := 1

/-- Kernel constant `IIO_VAL_FRACTIONAL_LOG2` (`include/linux/iio/types.h`). -/
def IIO_VAL_FRACTIONAL_LOG2 : Int := 11

/-- Kernel errno `EINVAL`. -/
def EINVAL : Int := 22

/-- Kernel errno `ENOMEM`. -/
def ENOMEM : Int := 12

/-- Kernel helper `BIT(n)`, that is `1UL << n`. -/
def BIT (n : Int) : Nat := (1 <<< n.toNat) % 2 ^ 64

/-! ## Channel descriptors -/

/-- The fields of the kernel's `struct iio_chan_spec` that the driver sets.
`indexed` and `differential` are one-bit bit-fields, `address` is an
`unsigned long`, `channel` and `channel2` are `int`.  A field left out of an
initialiser is zero. -/
structure iio_chan_spec where
  type : Nat := 0
  channel : Int := 0
  channel2 : Int := 0
  address : Nat := 0
  indexed : Bool := false
  differential : Bool := false
  info_mask_separate : Nat := 0
  info_mask_shared_by_type : Nat := 0
deriving DecidableEq, Repr

/-- C's logical not of a one-bit field, as an `int` that is 0 or 1. -/
def lnot (b : Bool) : Nat := if b then 0 else 1

/-- Source lines 62-67:
`reg = 0; reg |= (!chan->differential) << 7 | chan->address << 4; return reg;`
The shift of `address` is done in `unsigned long`, the result is stored in an
`unsigned int`. -/
def mcp3008_channel_to_tx_reg (chan : iio_chan_spec) : Nat :=
  let reg : Nat := 0
  (reg ||| ((lnot chan.differential) <<< 7 ||| (chan.address <<< 4) % 2 ^ 64)) % 2 ^ 32

/-- Source lines 103-248: the static table, entry by entry in source order. -/
def mcp3008_channels : List iio_chan_spec :=
  [
    { type := IIO_VOLTAGE, channel := 0, indexed := true, address := 0,
      info_mask_separate := BIT IIO_CHAN_INFO_RAW,
      info_mask_shared_by_type := BIT IIO_CHAN_INFO_SCALE },
    { type := IIO_VOLTAGE, channel := 1, indexed := true, address := 1,
      info_mask_separate := BIT IIO_CHAN_INFO_RAW,
      info_mask_shared_by_type := BIT IIO_CHAN_INFO_SCALE },
    { type := IIO_VOLTAGE, channel := 2, indexed := true, address := 2,
      info_mask_separate := BIT IIO_CHAN_INFO_RAW,
      info_mask_shared_by_type := BIT IIO_CHAN_INFO_SCALE },
    { type := IIO_VOLTAGE, channel := 3, indexed := true, address := 3,
      info_mask_separate := BIT IIO_CHAN_INFO_RAW,
      info_mask_shared_by_type := BIT IIO_CHAN_INFO_SCALE },
    { type := IIO_VOLTAGE, channel := 4, indexed := true, address := 4,
      info_mask_separate := BIT IIO_CHAN_INFO_RAW,
      info_mask_shared_by_type := BIT IIO_CHAN_INFO_SCALE },
    { type := IIO_VOLTAGE, channel := 5, indexed := true, address := 5,
      info_mask_separate := BIT IIO_CHAN_INFO_RAW,
      info_mask_shared_by_type := BIT IIO_CHAN_INFO_SCALE },
    { type := IIO_VOLTAGE, channel := 6, indexed := true, address := 6,
      info_mask_separate := BIT IIO_CHAN_INFO_RAW,
      info_mask_shared_by_type := BIT IIO_CHAN_INFO_SCALE },
    { type := IIO_VOLTAGE, channel := 7, indexed := true, address := 7,
      info_mask_separate := BIT IIO_CHAN_INFO_RAW,
      info_mask_shared_by_type := BIT IIO_CHAN_INFO_SCALE },
    { type := IIO_VOLTAGE, channel := 0, channel2 := 1, indexed := true, address := 0,
      differential := true,
      info_mask_separate := BIT IIO_CHAN_INFO_RAW,
      info_mask_shared_by_type := BIT IIO_CHAN_INFO_SCALE },
    { type := IIO_VOLTAGE, channel := 1, channel2 := 0, indexed := true, address := 1,
      differential := true,
      info_mask_separate := BIT IIO_CHAN_INFO_RAW,
      info_mask_shared_by_type := BIT IIO_CHAN_INFO_SCALE },
    { type := IIO_VOLTAGE, channel := 2, channel2 := 3, indexed := true, address := 2,
      differential := true,
      info_mask_separate := BIT IIO_CHAN_INFO_RAW,
      info_mask_shared_by_type := BIT IIO_CHAN_INFO_SCALE },
    { type := IIO_VOLTAGE, channel := 3, channel2 := 2, indexed := true, address := 3,
      differential := true,
      info_mask_separate := BIT IIO_CHAN_INFO_RAW,
      info_mask_shared_by_type := BIT IIO_CHAN_INFO_SCALE },
    { type := IIO_VOLTAGE, channel := 4, channel2 := 5, indexed := true, address := 4,
      differential := true,
      info_mask_separate := BIT IIO_CHAN_INFO_RAW,
      info_mask_shared_by_type := BIT IIO_CHAN_INFO_SCALE },
    { type := IIO_VOLTAGE, channel := 5, channel2 := 4, indexed := true, address := 5,
      differential := true,
      info_mask_separate := BIT IIO_CHAN_INFO_RAW,
      info_mask_shared_by_type := BIT IIO_CHAN_INFO_SCALE },
    { type := IIO_VOLTAGE, channel := 6, channel2 := 7, indexed := true, address := 6,
      differential := true,
      info_mask_separate := BIT IIO_CHAN_INFO_RAW,
      info_mask_shared_by_type := BIT IIO_CHAN_INFO_SCALE },
    { type := IIO_VOLTAGE, channel := 7, channel2 := 6, indexed := true, address := 7,
      differential := true,
      info_mask_separate := BIT IIO_CHAN_INFO_RAW,
      info_mask_shared_by_type := BIT IIO_CHAN_INFO_SCALE } ]

/-! ## The device instance and the bus -/

/-- A three-byte buffer (`u8 tx_buf[3]`, `u8 rx_buf[3]`). -/
structure buf3 where
  b0 : Nat := 0
  b1 : Nat := 0
  b2 : Nat := 0
deriving DecidableEq, Repr

/-- Storing three bytes into a `u8[3]` buffer keeps the low 8 bits of each. -/
def buf3.as_u8 (b : buf3) : buf3 :=
  { b0 := b.b0 % 256, b1 := b.b1 % 256, b2 := b.b2 % 256 }

/-- What the transport is handed by one `spi_sync`: the message's single
transfer, that is the bytes of the command buffer, the bytes the reply buffer
holds before the exchange, and the transfer length. -/
structure spi_xfer where
  tx : buf3
  rx : buf3
  len : Nat
deriving DecidableEq, Repr

/-- What one `spi_sync` gives back: its return code (0 on success) and the
bytes it leaves in the reply buffer. -/
structure spi_reply where
  err : Int
  rx : buf3
deriving DecidableEq, Repr

/-- The bus transport behind `spi_sync`, a collaborator outside the driver: it
answers a transfer knowing the earlier transfers on the wire. -/
abbrev spi_bus := List spi_xfer → spi_xfer → spi_reply

/-- The fields of `struct mcp3008` (source lines 19-30) that the read path
uses.  `lock` is the mutex, `none` when free and `some t` when held by caller
`t`; `transfer_len` is `transfer.len`; the message holds the one transfer,
whose buffers are `tx_buf` and `rx_buf`. -/
structure mcp3008 where
  lock : Option Nat := none
  transfer_len : Nat := 0
  tx_buf : buf3 := {}
  rx_buf : buf3 := {}
deriving DecidableEq, Repr

/-- What a caller does to the instance, recorded in program order. -/
inductive event where
  | tx_store (tid : Nat)
  | acquire (tid : Nat)
  | transfer (tid : Nat)
  | release (tid : Nat)
  | rx_load (tid : Nat)
deriving DecidableEq, Repr

/-- The instance together with two records kept for the proofs: `wire`, the
transfers handed to the transport so far (oldest first), and `trace`, the
buffer and lock events so far (oldest first). -/
structure machine where
  mcp : mcp3008
  wire : List spi_xfer := []
  trace : List event := []
deriving DecidableEq, Repr

/-- Source line 47: `mcp->tx_buf[1] = reg;` (a `u8` store). -/
def store_tx1 (tid : Nat) (reg : Nat) (s : machine) : machine :=
  { s with
    mcp := { s.mcp with tx_buf := { s.mcp.tx_buf with b1 := reg % 256 } },
    trace := s.trace ++ [event.tx_store tid] }

/-- Source line 48: `mutex_lock(&mcp->lock);`.  `none` when the mutex is held,
in which case the caller cannot proceed. -/
def mutex_lock (tid : Nat) (s : machine) : Option machine :=
  match s.mcp.lock with
  | none =>
    some { s with mcp := { s.mcp with lock := some tid },
                  trace := s.trace ++ [event.acquire tid] }
  | some _ => none

/-- Source line 49: `err = spi_sync(spi, &mcp->message);`.  The transport sees
the command buffer as it is now and leaves its reply in the reply buffer. -/
def spi_sync (bus : spi_bus) (tid : Nat) (s : machine) : Int × machine :=
  let x : spi_xfer := { tx := s.mcp.tx_buf, rx := s.mcp.rx_buf, len := s.mcp.transfer_len }
  let r := bus s.wire x
  (r.err,
   { s with mcp := { s.mcp with rx_buf := r.rx.as_u8 },
            wire := s.wire ++ [x],
            trace := s.trace ++ [event.transfer tid] })

/-- Source line 50: `mutex_unlock(&mcp->lock);`. -/
def mutex_unlock (tid : Nat) (s : machine) : machine :=
  { s with mcp := { s.mcp with lock := none },
           trace := s.trace ++ [event.release tid] }

/-- The right-hand side of source line 54:
`((mcp->rx_buf[1] & 0x03) << 8) | mcp->rx_buf[2]`, stored in an `unsigned int`. -/
def decode_rx (rx : buf3) : Nat :=
  (((rx.b1 &&& 0x03) <<< 8) ||| rx.b2) % 2 ^ 32

/-- Source line 54: the load of `rx_buf[1]` and `rx_buf[2]`. -/
def load_sample (tid : Nat) (s : machine) : Nat × machine :=
  (decode_rx s.mcp.rx_buf, { s with trace := s.trace ++ [event.rx_load tid] })

/-- Result of `mcp3008_spi_reg_read`: the return code, the value stored in
`*val` if any, and the machine afterwards. -/
structure reg_result where
  ret : Int
  val : Option Nat
  sys : machine
deriving DecidableEq, Repr

/-- Source lines 41-56, run by caller `tid` without interruption.  `none`
when the caller would wait for the mutex forever. -/
def mcp3008_spi_reg_read (bus : spi_bus) (tid : Nat) (s : machine) (reg : Nat) :
    Option reg_result :=
  let s1 := store_tx1 tid reg s
  match mutex_lock tid s1 with
  | none => none
  | some s2 =>
    let (err, s3) := spi_sync bus tid s2
    let s4 := mutex_unlock tid s3
    if err ≠ 0 then
      some { ret := err, val := none, sys := s4 }
    else
      let (v, s5) := load_sample tid s4
      some { ret := 0, val := some v, sys := s5 }

/-- Source lines 32-38: the regmap configuration. -/
structure regmap_config where
  reg_bits : Nat
  val_bits : Nat
  reg_stride : Nat
  disable_locking : Bool
  can_sleep : Bool
deriving DecidableEq, Repr

/-- Source lines 32-38. -/
def mcp3008_regmap_config : regmap_config :=
  { reg_bits := 8, val_bits := 16, reg_stride := 1, disable_locking := true, can_sleep := true }

/-- The kernel's `regmap_read` for the map that `mcp3008_spi_probe` creates:
no cache, no register limits, a bus with only `.reg_read`, stride taken from
the configuration and, because `disable_locking` is set, no lock of its own.
It rejects a misaligned register with `-EINVAL` and otherwise calls the bus
callback `mcp3008_spi_reg_read` and returns what it returns. -/
def regmap_read (cfg : regmap_config) (bus : spi_bus) (tid : Nat) (s : machine) (reg : Nat) :
    Option reg_result :=
  if reg % cfg.reg_stride ≠ 0 then
    some { ret := -EINVAL, val := none, sys := s }
  else
    mcp3008_spi_reg_read bus tid s reg

/-- An `unsigned int` cell read back through an `int *`. -/
def as_int (u : Nat) : Int :=
  if u % 2 ^ 32 < 2 ^ 31 then ((u % 2 ^ 32 : Nat) : Int) else ((u % 2 ^ 32 : Nat) : Int) - 2 ^ 32

/-- Result of `mcp3008_read_raw`: the return code, the values stored in `*val`
and `*val2` if any, and the machine afterwards. -/
structure raw_result where
  ret : Int
  val : Option Int
  val2 : Option Int
  sys : machine
deriving DecidableEq, Repr

/-- Source lines 69-90.  `regulator_get_voltage` is the value the regulator
call returns at this moment (microvolts, or a negative errno); the division
by 1000 is C's `int` division, which truncates toward zero. -/
def mcp3008_read_raw (bus : spi_bus) (regulator_get_voltage : Int) (tid : Nat) (s : machine)
    (chan : iio_chan_spec) (mask : Int) : Option raw_result :=
  let ret : Int := -EINVAL
  if mask = IIO_CHAN_INFO_RAW then
    match regmap_read mcp3008_regmap_config bus tid s (mcp3008_channel_to_tx_reg chan) with
    | none => none
    | some r =>
      let ret := if r.ret = 0 then IIO_VAL_INT else r.ret
      some { ret := ret, val := r.val.map as_int, val2 := none, sys := r.sys }
  else if mask = IIO_CHAN_INFO_SCALE then
    some { ret := IIO_VAL_FRACTIONAL_LOG2,
           val := some (Int.tdiv regulator_get_voltage 1000),
           val2 := some MCP3008_RESOLUTION,
           sys := s }
  else
    some { ret := ret, val := none, val2 := none, sys := s }

/-- Outcomes of the kernel calls made by `mcp3008_spi_probe`:
whether `devm_iio_device_alloc` returned memory, the error carried by the
pointers from `devm_regmap_init` and `devm_regulator_get` (`none` when the
pointer is valid), and the return codes of `devm_regulator_get_enable` and
`devm_iio_device_register`. -/
structure probe_env where
  alloc_ok : Bool
  regmap_err : Option Int
  regulator_err : Option Int
  enable_err : Int
  register_ret : Int
deriving DecidableEq, Repr

/-- Source lines 254-304.  Returns the return code and the instance as the
function leaves it (`none` when no instance was allocated).  The memory from
`devm_iio_device_alloc` is zeroed; lines 268-278 then initialise the mutex,
set the start bit `tx_buf[0] = 1` and the transfer length 3, and queue the
transfer in the message. -/
def mcp3008_spi_probe (env : probe_env) : Int × Option machine :=
  if !env.alloc_ok then (-ENOMEM, none)
  else
    let mcp : mcp3008 := {}
    let mcp := { mcp with lock := none }
    let mcp := { mcp with tx_buf := { mcp.tx_buf with b0 := 1 % 256 } }
    let mcp := { mcp with transfer_len := 3 }
    let s : machine := { mcp := mcp }
    match env.regmap_err with
    | some e => (e, some s)
    | none =>
      match env.regulator_err with
      | some e => (e, some s)
      | none =>
        if env.enable_err ≠ 0 then (env.enable_err, some s)
        else (env.register_ret, some s)

/-- A sequence of reads of the given `(caller, register)` pairs, one after the
other on one instance; results are dropped, the machine is kept. -/
def reads (bus : spi_bus) (s : machine) : List (Nat × Nat) → Option machine
  | [] => some s
  | (tid, reg) :: rest =>
    match mcp3008_spi_reg_read bus tid s reg with
    | none => none
    | some r => reads bus r.sys rest

/-! ## Several callers on one instance -/

/-- One caller inside `mcp3008_spi_reg_read`.  `pc` is the statement it will
run next: 0 for line 47, 1 for line 48, 2 for line 49, 3 for line 50, 4 for
lines 51-55, 5 once it has returned.  `err` is the local variable, `ret` the
return code and `val` the value stored in `*val`. -/
structure reader where
  tid : Nat
  reg : Nat
  pc : Nat := 0
  err : Int := 0
  ret : Option Int := none
  val : Option Nat := none
deriving DecidableEq, Repr

/-- One statement of `mcp3008_spi_reg_read` run by caller `t`; `none` when the
caller cannot move (it waits for the mutex, or it has returned). -/
def reader_step (bus : spi_bus) (s : machine) (t : reader) : Option (machine × reader) :=
  match t.pc with
  | 0 => some (store_tx1 t.tid t.reg s, { t with pc := 1 })
  | 1 =>
    match mutex_lock t.tid s with
    | none => none
    | some s2 => some (s2, { t with pc := 2 })
  | 2 =>
    let (err, s3) := spi_sync bus t.tid s
    some (s3, { t with pc := 3, err := err })
  | 3 => some (mutex_unlock t.tid s, { t with pc := 4 })
  | 4 =>
    if t.err ≠ 0 then
      some (s, { t with pc := 5, ret := some t.err })
    else
      let (v, s5) := load_sample t.tid s
      some (s5, { t with pc := 5, ret := some 0, val := some v })
  | _ => none

/-- The scheduler lets caller number `i` run one statement; nothing happens
when there is no such caller or it cannot move. -/
def sched_step (bus : spi_bus) (c : machine × List reader) (i : Nat) : machine × List reader :=
  match c.2[i]? with
  | none => c
  | some t =>
    match reader_step bus c.1 t with
    | none => c
    | some (s, t2) => (s, c.2.set i t2)

/-- Run a schedule, a list of caller numbers. -/
def run_schedule (bus : spi_bus) (c : machine × List reader) (sched : List Nat) :
    machine × List reader :=
  sched.foldl (sched_step bus) c

/-- Property from the specification, "buffers are never accessed outside a
held lock": scanning a trace with the current holder of the mutex, every
store to the command buffer, every transfer and every load from the reply
buffer is made by the holder. -/
def lock_discipline : Option Nat → List event → Bool
  | _, [] => true
  | owner, event.tx_store t :: es => (owner == some t) && lock_discipline owner es
  | _, event.acquire t :: es => lock_discipline (some t) es
  | owner, event.transfer t :: es => (owner == some t) && lock_discipline owner es
  | _, event.release _ :: es => lock_discipline none es
  | owner, event.rx_load t :: es => (owner == some t) && lock_discipline owner es

/-- A transport stub standing for the chip: whatever the history, it answers
the command byte's line bits 6-4 with that line's current 10-bit sample,
framed as the device frames it. -/
def adc_bus (inputs : Nat → Nat) : spi_bus := fun _ x =>
  let line := (x.tx.b1 >>> 4) &&& 7
  let smp := inputs line % 1024
  { err := 0, rx := { b0 := 0, b1 := (smp >>> 8) &&& 0x03, b2 := smp &&& 0xFF } }

/-- A transport stub whose first exchange fails with -5 (`-EIO`), leaving the
reply buffer as it was, and which answers like `adc_bus` afterwards. -/
def flaky_bus (inputs : Nat → Nat) : spi_bus := fun w x =>
  if w.length = 0 then { err := -5, rx := x.rx } else adc_bus inputs w x

/-- A transport stub that always gives the same reply. -/
def const_bus (r : spi_reply) : spi_bus := fun _ _ => r

/-- Kernel outcomes under which `mcp3008_spi_probe` succeeds. -/
def probe_ok : probe_env :=
  { alloc_ok := true, regmap_err := none, regulator_err := none, enable_err := 0,
    register_ret := 0 }

/-- The instance right after a successful probe: zeroed memory, free mutex,
start bit set, transfer length 3. -/
def fresh : machine :=
  { mcp := { lock := none, transfer_len := 3, tx_buf := { b0 := 1, b1 := 0, b2 := 0 },
             rx_buf := { b0 := 0, b1 := 0, b2 := 0 } } }

/-- Line `k` carries the sample `100 * (k + 1)`. -/
def ramp (k : Nat) : Nat := 100 * (k + 1)

/-- The ordered pairs of the device's pairing table. -/
def line_pairs : List (Int × Int) :=
  [(0, 1), (1, 0), (2, 3), (3, 2), (4, 5), (5, 4), (6, 7), (7, 6)]

/-- The transfer that a read of register `reg` started in state `s` hands to
the transport: the command buffer with `reg` stored in byte 1 (line 47), the
reply buffer as it is, and the configured length. -/
def xfer_of (s : machine) (reg : Nat) : spi_xfer :=
  { tx := (store_tx1 0 reg s).mcp.tx_buf, rx := s.mcp.rx_buf, len := s.mcp.transfer_len }

/-- What holds of the instance between reads: the mutex is free, the start
bit is in place, the transfer length is 3, and every transfer made so far
carried the start bit and length 3. -/
def ready (s : machine) : Prop :=
  s.mcp.lock = none ∧ s.mcp.tx_buf.b0 = 1 ∧ s.mcp.transfer_len = 3
    ∧ ∀ y ∈ s.wire, y.tx.b0 = 1 ∧ y.len = 3

/-- The valid channel whose command byte a descriptor's command byte equals:
line `address mod 8`, and differential only if the descriptor is differential
and bit 3 of its address is clear (bit 3 of the address lands on the mode bit). -/
def wire_alias (chan : iio_chan_spec) : iio_chan_spec :=
  { address := chan.address % 8,
    differential := chan.differential && !(chan.address.testBit 3) }

/-! ## Theorems -/

/-- The model of probe under succeeding kernel calls yields the `fresh` instance. -/
theorem probe_ok_fresh : mcp3008_spi_probe probe_ok = (0, some fresh) := by
  decide

/-- The register id depends on the address and the mode flag only. -/
theorem tx_reg_fields (chan : iio_chan_spec) :
    mcp3008_channel_to_tx_reg chan
      = mcp3008_channel_to_tx_reg { address := chan.address, differential := chan.differential } :=
  rfl

/-- The encoding on the 16 valid (address, mode) combinations, by enumeration. -/
theorem tx_reg_enum : ∀ a < 8, ∀ d : Bool,
    mcp3008_channel_to_tx_reg { address := a, differential := d }
        = 128 * (if d then 0 else 1) + 16 * a
      ∧ ((mcp3008_channel_to_tx_reg { address := a, differential := d }).testBit 7 = !d)
      ∧ ((mcp3008_channel_to_tx_reg { address := a, differential := d }) >>> 4) &&& 7 = a
      ∧ (mcp3008_channel_to_tx_reg { address := a, differential := d }) &&& 0xF = 0
      ∧ mcp3008_channel_to_tx_reg { address := a, differential := d } < 256 := by
  decide

/-- Injectivity on the 16 valid (address, mode) combinations, by enumeration. -/
theorem tx_reg_enum_inj : ∀ a < 8, ∀ b < 8, ∀ d e : Bool,
    mcp3008_channel_to_tx_reg { address := a, differential := d }
        = mcp3008_channel_to_tx_reg { address := b, differential := e } →
      a = b ∧ d = e := by
  decide

/-- C1: for a descriptor with address `a` in 0..7 the register id is
`128 * (1 if single-ended else 0) + 16 * a`; bit 7 is set exactly for
single-ended, bits 6-4 hold the line, bits 3-0 are zero, nothing above bit 7 is
set; the table's single-ended line 3 gives 0xB0 and its pair (0,1) gives 0. -/
theorem channel_to_tx_reg_layout (chan : iio_chan_spec) (h : chan.address ≤ 7) :
    mcp3008_channel_to_tx_reg chan
        = 128 * (if chan.differential then 0 else 1) + 16 * chan.address
      ∧ ((mcp3008_channel_to_tx_reg chan).testBit 7 = !chan.differential)
      ∧ ((mcp3008_channel_to_tx_reg chan) >>> 4) &&& 7 = chan.address
      ∧ (mcp3008_channel_to_tx_reg chan) &&& 0xF = 0
      ∧ mcp3008_channel_to_tx_reg chan < 256
      ∧ (mcp3008_channels.filter fun c => !c.differential && c.channel == 3).map
          mcp3008_channel_to_tx_reg = [0xB0]
      ∧ (mcp3008_channels.filter fun c =>
            c.differential && c.channel == 0 && c.channel2 == 1).map
          mcp3008_channel_to_tx_reg = [0x00] := by
  have hk := tx_reg_enum chan.address (by omega) chan.differential
  rw [← tx_reg_fields chan] at hk
  exact ⟨hk.1, hk.2.1, hk.2.2.1, hk.2.2.2.1, hk.2.2.2.2, by decide, by decide⟩

/-- Witness for C1: the single-ended descriptor with address 3. -/
theorem channel_to_tx_reg_layout_witness :
    (3 : Nat) ≤ 7
      ∧ mcp3008_channel_to_tx_reg { address := 3 } = 0xB0
      ∧ (mcp3008_channel_to_tx_reg { address := 3 }).testBit 7 = true
      ∧ ((mcp3008_channel_to_tx_reg { address := 3 }) >>> 4) &&& 7 = 3 :=
  have h := channel_to_tx_reg_layout { address := 3 } (by decide)
  ⟨by decide, h.1, h.2.1, h.2.2.1⟩

/-- C7: on addresses 0..7 equal register ids force equal address and equal
mode, and the 16 table entries encode to 16 pairwise distinct register ids. -/
theorem channel_to_tx_reg_injective (c1 c2 : iio_chan_spec)
    (h1 : c1.address ≤ 7) (h2 : c2.address ≤ 7)
    (heq : mcp3008_channel_to_tx_reg c1 = mcp3008_channel_to_tx_reg c2) :
    (c1.address = c2.address ∧ c1.differential = c2.differential)
      ∧ (mcp3008_channels.map mcp3008_channel_to_tx_reg).Nodup
      ∧ (mcp3008_channels.map mcp3008_channel_to_tx_reg).length = 16 := by
  refine ⟨?_, by decide, by decide⟩
  rw [tx_reg_fields c1, tx_reg_fields c2] at heq
  exact tx_reg_enum_inj c1.address (by omega) c2.address (by omega) _ _ heq

/-- Witness for C7: the table's differential entry (5,4) against a descriptor
with the same address and mode and other fields left at zero. -/
theorem channel_to_tx_reg_injective_witness :
    mcp3008_channel_to_tx_reg
        { address := 5, differential := true, channel := 5, channel2 := 4 }
        = mcp3008_channel_to_tx_reg { address := 5, differential := true }
      ∧ (5 : Nat) = 5 ∧ true = true :=
  ⟨by decide,
   (channel_to_tx_reg_injective
      { address := 5, differential := true, channel := 5, channel2 := 4 }
      { address := 5, differential := true } (by decide) (by decide) (by decide)).1⟩

/-- C8: the table has 16 entries; its single-ended entries are lines 0..7,
one each; 8 entries are differential; every entry's address equals its channel
and is at most 7; every differential entry pairs two distinct lines, the pair
is one of the device's eight ordered pairs, and each of those occurs once. -/
theorem channels_well_formed :
    mcp3008_channels.length = 16
      ∧ (mcp3008_channels.filter fun c => !c.differential).map (fun c => c.address)
          = [0, 1, 2, 3, 4, 5, 6, 7]
      ∧ (mcp3008_channels.filter fun c => c.differential).length = 8
      ∧ (∀ c ∈ mcp3008_channels, (c.address : Int) = c.channel ∧ c.address ≤ 7)
      ∧ (∀ c ∈ mcp3008_channels, c.differential = true →
            c.channel2 ≠ c.channel ∧ (c.channel, c.channel2) ∈ line_pairs)
      ∧ (∀ p ∈ line_pairs,
            ((mcp3008_channels.filter fun c => c.differential).map
              fun c => (c.channel, c.channel2)).count p = 1) := by
  refine ⟨by decide, by decide, by decide, by decide, by decide, by decide⟩

set_option maxRecDepth 100000 in
/-- Decoding the device's framing of a 10-bit sample, after the bytes went
through `u8` cells, gives the sample back. -/
theorem decode_frame : ∀ smp < 1024, ∀ b0 : Nat,
    decode_rx (buf3.as_u8 { b0 := b0, b1 := (smp >>> 8) &&& 0x03, b2 := smp &&& 0xFF }) = smp := by
  intro smp h b0
  revert smp
  simp only [decode_rx, buf3.as_u8]
  decide

/-- What a read does when the mutex is free, in terms of the transport's reply. -/
theorem reg_read_unlocked (bus : spi_bus) (tid : Nat) (s : machine) (reg : Nat)
    (h : s.mcp.lock = none) :
    ∃ r, mcp3008_spi_reg_read bus tid s reg = some r
      ∧ r.sys.wire = s.wire ++ [xfer_of s reg]
      ∧ r.sys.mcp.lock = none
      ∧ r.sys.mcp.transfer_len = s.mcp.transfer_len
      ∧ r.sys.mcp.tx_buf.b0 = s.mcp.tx_buf.b0
      ∧ ((bus s.wire (xfer_of s reg)).err ≠ 0 →
          r.ret = (bus s.wire (xfer_of s reg)).err ∧ r.val = none)
      ∧ ((bus s.wire (xfer_of s reg)).err = 0 →
          r.ret = 0 ∧ r.val = some (decode_rx (bus s.wire (xfer_of s reg)).rx.as_u8)) := by
  by_cases he : (bus s.wire (xfer_of s reg)).err = 0
  · simp [mcp3008_spi_reg_read, store_tx1, mutex_lock, h, spi_sync, mutex_unlock, load_sample,
      xfer_of] at he ⊢
    simp [he]
  · simp [mcp3008_spi_reg_read, store_tx1, mutex_lock, h, spi_sync, mutex_unlock, load_sample,
      xfer_of] at he ⊢
    simp [he]

/-- The raw branch of `mcp3008_read_raw` is the register read of the encoded
channel, with return code 0 turned into `IIO_VAL_INT`. -/
theorem read_raw_raw_eq (bus : spi_bus) (uv : Int) (tid : Nat) (s : machine)
    (chan : iio_chan_spec) :
    mcp3008_read_raw bus uv tid s chan IIO_CHAN_INFO_RAW
      = (mcp3008_spi_reg_read bus tid s (mcp3008_channel_to_tx_reg chan)).map fun r =>
          { ret := if r.ret = 0 then IIO_VAL_INT else r.ret, val := r.val.map as_int,
            val2 := none, sys := r.sys } := by
  simp only [mcp3008_read_raw, regmap_read, mcp3008_regmap_config, Nat.mod_one, ne_eq,
    not_true_eq_false, if_false, if_true]
  cases mcp3008_spi_reg_read bus tid s (mcp3008_channel_to_tx_reg chan) <;> rfl

/-- The command bytes of the transfer a read hands over. -/
theorem xfer_of_fields (s : machine) (reg : Nat) :
    (xfer_of s reg).tx.b0 = s.mcp.tx_buf.b0 ∧ (xfer_of s reg).tx.b1 = reg % 256
      ∧ (xfer_of s reg).len = s.mcp.transfer_len := by
  simp [xfer_of, store_tx1]

/-- A probe that leaves an instance leaves the `fresh` one. -/
theorem probe_state (env : probe_env) (ret : Int) (s : machine)
    (hp : mcp3008_spi_probe env = (ret, some s)) : s = fresh := by
  obtain ⟨ok, rm, rg, en, rr⟩ := env
  cases ok
  · simp [mcp3008_spi_probe] at hp
  · cases rm <;> cases rg <;> by_cases hen : en = 0 <;>
      simp [mcp3008_spi_probe, hen] at hp <;> (rw [← hp.2]; rfl)

/-- The `fresh` instance is ready. -/
theorem ready_fresh : ready fresh := by
  simp [ready, fresh]

/-- A read on a ready instance returns and leaves it ready. -/
theorem ready_reg_read (bus : spi_bus) (tid : Nat) (s : machine) (reg : Nat) (h : ready s) :
    ∃ r, mcp3008_spi_reg_read bus tid s reg = some r ∧ ready r.sys
      ∧ r.sys.wire = s.wire ++ [xfer_of s reg] := by
  obtain ⟨hl, hb, hlen, hw⟩ := h
  obtain ⟨r, hr, hwire, hl2, hlen2, hb2, -, -⟩ := reg_read_unlocked bus tid s reg hl
  refine ⟨r, hr, ⟨hl2, by rw [hb2, hb], by rw [hlen2, hlen], ?_⟩, hwire⟩
  intro y hy
  rw [hwire, List.mem_append, List.mem_singleton] at hy
  rcases hy with hy | hy
  · exact hw y hy
  · subst hy
    obtain ⟨e0, -, e2⟩ := xfer_of_fields s reg
    exact ⟨by rw [e0, hb], by rw [e2, hlen]⟩

/-- Any sequence of reads on a ready instance runs through and leaves it ready. -/
theorem ready_reads (bus : spi_bus) (l : List (Nat × Nat)) :
    ∀ s, ready s → ∃ s2, reads bus s l = some s2 ∧ ready s2 := by
  induction l with
  | nil => intro s h; exact ⟨s, rfl, h⟩
  | cons p rest ih =>
    intro s h
    obtain ⟨tid, reg⟩ := p
    obtain ⟨r, hr, hready, -⟩ := ready_reg_read bus tid s reg h
    obtain ⟨s2, hs2, h2⟩ := ih r.sys hready
    exact ⟨s2, by simp [reads, hr, hs2], h2⟩

/-- C2: when the mutex is free and the transport succeeds leaving any byte 0,
byte 1 = `(smp >> 8) & 0b11` and byte 2 = `smp & 0xFF` for a sample
`smp` in 0..1023, `mcp3008_spi_reg_read` returns 0 and stores exactly `smp`
in `*val`; the reply `[0x00, 0x02, 0x34]` decodes to 564. -/
theorem reg_read_decodes (bus : spi_bus) (tid : Nat) (s : machine) (reg smp b0 : Nat)
    (hfree : s.mcp.lock = none) (hs : smp ≤ 1023)
    (hreply : bus s.wire (xfer_of s reg)
      = { err := 0, rx := { b0 := b0, b1 := (smp >>> 8) &&& 0x03, b2 := smp &&& 0xFF } }) :
    (∃ r, mcp3008_spi_reg_read bus tid s reg = some r ∧ r.ret = 0 ∧ r.val = some smp)
      ∧ (mcp3008_spi_reg_read
            (const_bus { err := 0, rx := { b0 := 0x00, b1 := 0x02, b2 := 0x34 } }) tid fresh reg).map
          (fun r => (r.ret, r.val)) = some (0, some 564) := by
  constructor
  · obtain ⟨r, hr, -, -, -, -, -, hok⟩ := reg_read_unlocked bus tid s reg hfree
    have h0 : (bus s.wire (xfer_of s reg)).err = 0 := by rw [hreply]
    obtain ⟨hret, hval⟩ := hok h0
    refine ⟨r, hr, hret, ?_⟩
    rw [hval, hreply]
    exact congrArg some (decode_frame smp (by omega) b0)
  · obtain ⟨r, hr, -, -, -, -, -, hok⟩ :=
      reg_read_unlocked (const_bus { err := 0, rx := { b0 := 0x00, b1 := 0x02, b2 := 0x34 } })
        tid fresh reg rfl
    obtain ⟨hret, hval⟩ := hok rfl
    rw [hr, Option.map_some', hret, hval]
    simp only [const_bus]
    decide

/-- Witness for C2: sample 564 read from the `fresh` instance through a
transport that always replies `[0x00, 0x02, 0x34]`. -/
theorem reg_read_decodes_witness :
    ∃ r, mcp3008_spi_reg_read
        (const_bus { err := 0, rx := { b0 := 0x00, b1 := 0x02, b2 := 0x34 } }) 0 fresh 0xB0 = some r
      ∧ r.ret = 0 ∧ r.val = some 564 :=
  (reg_read_decodes (const_bus { err := 0, rx := { b0 := 0x00, b1 := 0x02, b2 := 0x34 } })
    0 fresh 0xB0 564 0 rfl (by decide) (by decide)).1

/-- C3: on an instance set up by a successful `mcp3008_spi_probe`, after any
sequence of earlier reads by any callers, whatever the transport answered, a
read of a register `r` in 0..255 hands the transport one more transfer, whose
command byte 0 is 0x01 and byte 1 is `r`, with length 3; and every transfer
ever made carried byte 0 = 0x01 and length 3. -/
theorem command_buffer_invariant (env : probe_env) (s : machine)
    (hp : mcp3008_spi_probe env = (0, some s))
    (bus : spi_bus) (earlier : List (Nat × Nat)) (tid r : Nat) (hr : r ≤ 255) :
    ∃ s2 res x, reads bus s earlier = some s2
      ∧ mcp3008_spi_reg_read bus tid s2 r = some res
      ∧ res.sys.wire = s2.wire ++ [x]
      ∧ x.tx.b0 = 0x01 ∧ x.tx.b1 = r ∧ x.len = 3
      ∧ ∀ y ∈ res.sys.wire, y.tx.b0 = 0x01 ∧ y.len = 3 := by
  have hs : s = fresh := probe_state env 0 s hp
  subst hs
  obtain ⟨s2, hs2, hready⟩ := ready_reads bus earlier fresh ready_fresh
  obtain ⟨res, hres, hready2, hwire⟩ := ready_reg_read bus tid s2 r hready
  obtain ⟨e0, e1, e2⟩ := xfer_of_fields s2 r
  refine ⟨s2, res, xfer_of s2 r, hs2, hres, hwire, ?_, ?_, ?_, hready2.2.2.2⟩
  · rw [e0, hready.2.1]
  · rw [e1]; omega
  · rw [e2, hready.2.2.1]

/-- Witness for C3: after a successful probe, a failed read of 0x80 and a
successful read of 0x90, a read of register 0xB0. -/
theorem command_buffer_invariant_witness :
    ∃ s2 res x, reads (flaky_bus ramp) fresh [(1, 0x80), (2, 0x90)] = some s2
      ∧ mcp3008_spi_reg_read (flaky_bus ramp) 3 s2 0xB0 = some res
      ∧ res.sys.wire = s2.wire ++ [x]
      ∧ x.tx.b0 = 0x01 ∧ x.tx.b1 = 0xB0 ∧ x.len = 3
      ∧ ∀ y ∈ res.sys.wire, y.tx.b0 = 0x01 ∧ y.len = 3 :=
  command_buffer_invariant probe_ok fresh probe_ok_fresh (flaky_bus ramp) [(1, 0x80), (2, 0x90)]
    3 0xB0 (by decide)

/-- C4: when the mutex is free and the transport fails with a nonzero code
`e`, `mcp3008_spi_reg_read` returns `e` and stores nothing in `*val`, and
`mcp3008_read_raw` for `IIO_CHAN_INFO_RAW` returns `e`, stores nothing, and
(error codes being negative) does not return `IIO_VAL_INT`; in both the
transport is called exactly once. -/
theorem transport_failure_propagates (bus : spi_bus) (uv : Int) (tid : Nat) (s : machine)
    (reg : Nat) (chan : iio_chan_spec) (e : Int)
    (hfree : s.mcp.lock = none) (he : e ≠ 0) (hfail : ∀ x, (bus s.wire x).err = e) :
    (∃ r, mcp3008_spi_reg_read bus tid s reg = some r ∧ r.ret = e ∧ r.val = none
        ∧ r.sys.wire = s.wire ++ [xfer_of s reg])
      ∧ (∃ rr, mcp3008_read_raw bus uv tid s chan IIO_CHAN_INFO_RAW = some rr
        ∧ rr.ret = e ∧ rr.val = none ∧ rr.val2 = none
        ∧ rr.sys.wire = s.wire ++ [xfer_of s (mcp3008_channel_to_tx_reg chan)]
        ∧ (e < 0 → rr.ret ≠ IIO_VAL_INT)) := by
  have key : ∀ reg, ∃ r, mcp3008_spi_reg_read bus tid s reg = some r ∧ r.ret = e ∧ r.val = none
      ∧ r.sys.wire = s.wire ++ [xfer_of s reg] := by
    intro reg
    obtain ⟨r, hr, hwire, -, -, -, hbad, -⟩ := reg_read_unlocked bus tid s reg hfree
    have hne : (bus s.wire (xfer_of s reg)).err ≠ 0 := by rw [hfail]; exact he
    obtain ⟨hret, hval⟩ := hbad hne
    exact ⟨r, hr, by rw [hret, hfail], hval, hwire⟩
  refine ⟨key reg, ?_⟩
  obtain ⟨r, hr, hret, hval, hwire⟩ := key (mcp3008_channel_to_tx_reg chan)
  refine ⟨_, by rw [read_raw_raw_eq, hr]; rfl, ?_, ?_, rfl, hwire, ?_⟩
  · simp [hret, he]
  · simp [hval]
  · intro hneg
    simp only [hret, he, if_false]
    simp only [IIO_VAL_INT]
    omega

/-- Witness for C4: a transport that always fails with -5 (`-EIO`), on the
`fresh` instance, for register 0xB0 and the descriptor of line 3. -/
theorem transport_failure_propagates_witness :
    (∃ r, mcp3008_spi_reg_read (const_bus { err := -5, rx := {} }) 0 fresh 0xB0 = some r
        ∧ r.ret = -5 ∧ r.val = none ∧ r.sys.wire = fresh.wire ++ [xfer_of fresh 0xB0])
      ∧ (∃ rr, mcp3008_read_raw (const_bus { err := -5, rx := {} }) 3300000 0 fresh
            { address := 3 } IIO_CHAN_INFO_RAW = some rr
        ∧ rr.ret = -5 ∧ rr.val = none ∧ rr.val2 = none
        ∧ rr.sys.wire = fresh.wire ++ [xfer_of fresh (mcp3008_channel_to_tx_reg { address := 3 })]
        ∧ ((-5 : Int) < 0 → rr.ret ≠ IIO_VAL_INT)) :=
  transport_failure_propagates (const_bus { err := -5, rx := {} }) 3300000 0 fresh 0xB0
    { address := 3 } (-5) rfl (by decide) (fun _ => rfl)

/-- C5: when the regulator reports `V * 1000` microvolts, the scale query
returns `IIO_VAL_FRACTIONAL_LOG2` with `*val = V` and `*val2 = 10`, for every
descriptor and without touching the instance; for 3300 mV it gives (3300, 10). -/
theorem read_scale (bus : spi_bus) (V : Nat) (tid : Nat) (s : machine) (chan : iio_chan_spec) :
    mcp3008_read_raw bus ((V : Int) * 1000) tid s chan IIO_CHAN_INFO_SCALE
        = some { ret := IIO_VAL_FRACTIONAL_LOG2, val := some (V : Int), val2 := some 10, sys := s }
      ∧ mcp3008_read_raw bus 3300000 tid s chan IIO_CHAN_INFO_SCALE
        = some { ret := IIO_VAL_FRACTIONAL_LOG2, val := some 3300, val2 := some 10, sys := s } := by
  constructor
  · have hd : Int.tdiv ((V : Int) * 1000) 1000 = (V : Int) :=
      Int.mul_tdiv_cancel _ (by decide)
    simp [mcp3008_read_raw, IIO_CHAN_INFO_SCALE, IIO_CHAN_INFO_RAW, MCP3008_RESOLUTION, hd]
  · have hd : Int.tdiv 3300000 1000 = 3300 := by decide
    simp [mcp3008_read_raw, IIO_CHAN_INFO_SCALE, IIO_CHAN_INFO_RAW, MCP3008_RESOLUTION, hd]

/-- C6, the code at the failing input: when `regulator_get_voltage` returns
the error `-EINVAL`, the scale query still returns `IIO_VAL_FRACTIONAL_LOG2`,
with `*val = 0` (the error divided by 1000) and `*val2 = 10`; whatever the
regulator call returns, the return code is `IIO_VAL_FRACTIONAL_LOG2`. -/
theorem read_scale_masks_regulator_error (bus : spi_bus) (tid : Nat) (s : machine)
    (chan : iio_chan_spec) :
    mcp3008_read_raw bus (-EINVAL) tid s chan IIO_CHAN_INFO_SCALE
        = some { ret := IIO_VAL_FRACTIONAL_LOG2, val := some 0, val2 := some 10, sys := s }
      ∧ IIO_VAL_FRACTIONAL_LOG2 ≠ -EINVAL
      ∧ ∀ uv : Int, (mcp3008_read_raw bus uv tid s chan IIO_CHAN_INFO_SCALE).map (fun r => r.ret)
          = some IIO_VAL_FRACTIONAL_LOG2 := by
  refine ⟨?_, by decide, ?_⟩
  · have hd : Int.tdiv (-EINVAL) 1000 = 0 := by decide
    simp [mcp3008_read_raw, IIO_CHAN_INFO_SCALE, IIO_CHAN_INFO_RAW, MCP3008_RESOLUTION, hd]
  · intro uv
    simp [mcp3008_read_raw, IIO_CHAN_INFO_SCALE, IIO_CHAN_INFO_RAW]

/-- Reduction modulo a power of two goes through bitwise or. -/
theorem or_mod_pow (x y n : Nat) : (x ||| y) % 2 ^ n = x % 2 ^ n ||| y % 2 ^ n := by
  apply Nat.eq_of_testBit_eq
  intro i
  simp only [Nat.testBit_mod_two_pow, Nat.testBit_or]
  by_cases h : i < n <;> simp [h]

/-- The command byte only sees the low four bits of the address. -/
theorem tx_byte_mod16 (a : Nat) (d : Bool) :
    mcp3008_channel_to_tx_reg { address := a, differential := d } % 256
      = mcp3008_channel_to_tx_reg { address := a % 16, differential := d } % 256 := by
  have h : ∀ n : Nat, n % 2 ^ 32 % 256 = n % 2 ^ 8 := by intro n; omega
  have h2 : ∀ a : Nat, (a <<< 4) % 2 ^ 64 % 2 ^ 8 = ((a % 16) <<< 4) % 2 ^ 64 % 2 ^ 8 := by
    intro a; simp only [Nat.shiftLeft_eq]; omega
  simp only [mcp3008_channel_to_tx_reg, Nat.zero_or]
  rw [h, h, or_mod_pow, or_mod_pow _ ((a % 16) <<< 4 % 2 ^ 64), h2]

/-- Command bytes for the sixteen values of the low four address bits. -/
theorem tx_byte_enum : ∀ a < 16, ∀ d : Bool,
    mcp3008_channel_to_tx_reg { address := a, differential := d } % 256
      = mcp3008_channel_to_tx_reg (wire_alias { address := a, differential := d }) := by
  decide

/-- The command byte of any descriptor is the register id of its `wire_alias`,
a channel with address in 0..7. -/
theorem tx_byte_alias (chan : iio_chan_spec) :
    mcp3008_channel_to_tx_reg chan % 256 = mcp3008_channel_to_tx_reg (wire_alias chan)
      ∧ (wire_alias chan).address ≤ 7 := by
  constructor
  · rw [tx_reg_fields chan, tx_byte_mod16,
      tx_byte_enum (chan.address % 16) (Nat.mod_lt _ (by decide)) chan.differential]
    have e1 : chan.address % 16 % 8 = chan.address % 8 := by omega
    have e2 : (chan.address % 16).testBit 3 = chan.address.testBit 3 := by
      have := Nat.testBit_mod_two_pow chan.address 4 3
      simpa using this
    simp only [wire_alias, e1, e2]
  · simp only [wire_alias]; omega

/-- C9, counterexample: the single-ended descriptor with address 8 is read
like a valid channel.  `mcp3008_read_raw` returns `IIO_VAL_INT`, not an
error; the one transfer it makes carries command byte 0x80, the register id
of the table's single-ended line 0; and the value stored is line 0's sample. -/
theorem read_raw_accepts_address_8 :
    (mcp3008_read_raw (adc_bus ramp) 3300000 0 fresh { address := 8 } IIO_CHAN_INFO_RAW).map
        (fun r => (r.ret, r.val, r.sys.wire.map fun x => x.tx.b1))
        = some (IIO_VAL_INT, some (ramp 0 : Int), [0x80])
      ∧ IIO_VAL_INT ≠ -EINVAL
      ∧ (mcp3008_channels.filter fun c => !c.differential && c.channel == 0).map
          mcp3008_channel_to_tx_reg = [0x80] := by
  refine ⟨by decide, by decide, by decide⟩

/-- C9 as amended: a descriptor with address above 7 is not an entry of
`mcp3008_channels`, and a raw read given one does not check it.  With the
mutex free it makes exactly one transfer, whose command byte 1 is the low 8
bits of the register id, which is the register id of the valid channel
`wire_alias chan`; if the transport succeeds it returns `IIO_VAL_INT` and
stores the decoded reply, and if the transport fails it returns the
transport's code and stores nothing. -/
theorem read_raw_unvalidated (bus : spi_bus) (uv : Int) (tid : Nat) (s : machine)
    (chan : iio_chan_spec) (hfree : s.mcp.lock = none) (hbig : 7 < chan.address) :
    chan ∉ mcp3008_channels
      ∧ ∃ rr, mcp3008_read_raw bus uv tid s chan IIO_CHAN_INFO_RAW = some rr
        ∧ rr.sys.wire = s.wire ++ [xfer_of s (mcp3008_channel_to_tx_reg chan)]
        ∧ (xfer_of s (mcp3008_channel_to_tx_reg chan)).tx.b1
            = mcp3008_channel_to_tx_reg (wire_alias chan)
        ∧ (wire_alias chan).address ≤ 7
        ∧ ((bus s.wire (xfer_of s (mcp3008_channel_to_tx_reg chan))).err = 0 →
            rr.ret = IIO_VAL_INT
              ∧ rr.val = some (as_int (decode_rx
                  (bus s.wire (xfer_of s (mcp3008_channel_to_tx_reg chan))).rx.as_u8)))
        ∧ ((bus s.wire (xfer_of s (mcp3008_channel_to_tx_reg chan))).err ≠ 0 →
            rr.ret = (bus s.wire (xfer_of s (mcp3008_channel_to_tx_reg chan))).err
              ∧ rr.val = none) := by
  constructor
  · intro hmem
    have hall : ∀ c ∈ mcp3008_channels, c.address ≤ 7 := by decide
    have := hall chan hmem
    omega
  obtain ⟨r, hr, hwire, -, -, -, hbad, hok⟩ :=
    reg_read_unlocked bus tid s (mcp3008_channel_to_tx_reg chan) hfree
  refine ⟨_, by rw [read_raw_raw_eq, hr]; rfl, hwire, ?_, (tx_byte_alias chan).2, ?_, ?_⟩
  · rw [(xfer_of_fields s _).2.1]
    exact (tx_byte_alias chan).1
  · intro h0
    obtain ⟨hret, hval⟩ := hok h0
    simp [hret, hval]
  · intro hne
    obtain ⟨hret, hval⟩ := hbad hne
    simp [hret, hval, hne]

/-- Witness for C9 as amended: the differential descriptor with address 9 on
the `fresh` instance; its command byte is that of single-ended line 1. -/
theorem read_raw_unvalidated_witness :
    ({ address := 9, differential := true } : iio_chan_spec) ∉ mcp3008_channels
      ∧ ∃ rr, mcp3008_read_raw (adc_bus ramp) 3300000 0 fresh
          { address := 9, differential := true } IIO_CHAN_INFO_RAW = some rr
        ∧ rr.sys.wire = fresh.wire
            ++ [xfer_of fresh (mcp3008_channel_to_tx_reg { address := 9, differential := true })]
        ∧ (xfer_of fresh (mcp3008_channel_to_tx_reg { address := 9, differential := true })).tx.b1
            = mcp3008_channel_to_tx_reg { address := 1, differential := false } :=
  let ⟨h0, rr, h1, h2, h3, _⟩ := read_raw_unvalidated (adc_bus ramp) 3300000 0 fresh
    { address := 9, differential := true } rfl (by decide)
  ⟨h0, rr, h1, h2, h3⟩

/-- C10, the code at the failing input.  In a read on the `fresh` instance,
whatever the transport and the register, the recorded trace breaks the lock
discipline: it is the store to `tx_buf[1]`, then the acquire, the transfer and
the release, then (on success) the load from `rx_buf`.  With two callers
reading registers 0x80 and 0x90 at once, the schedule in which both store
before either locks sends 0x90 twice and gives the first caller line 1's
sample, and the schedule in which the second caller's transfer runs between
the first caller's unlock and its load does the same, while both serial
orders give the first caller line 0's sample. -/
theorem reads_race_outside_lock :
    (∀ (bus : spi_bus) (tid reg : Nat),
        (mcp3008_spi_reg_read bus tid fresh reg).map
          (fun r => lock_discipline none r.sys.trace) = some false)
      ∧ (mcp3008_spi_reg_read (adc_bus ramp) 1 fresh 0x80).map (fun r => r.sys.trace)
          = some [event.tx_store 1, event.acquire 1, event.transfer 1, event.release 1,
                  event.rx_load 1]
      ∧ (let c := run_schedule (adc_bus ramp)
              (fresh, [{ tid := 1, reg := 0x80 }, { tid := 2, reg := 0x90 }])
              [0, 1, 0, 0, 0, 0, 1, 1, 1, 1]
         (c.2.map fun t => (t.ret, t.val)) = [(some 0, some (ramp 1)), (some 0, some (ramp 1))]
           ∧ c.1.wire.map (fun x => x.tx.b1) = [0x90, 0x90])
      ∧ (let c := run_schedule (adc_bus ramp)
              (fresh, [{ tid := 1, reg := 0x80 }, { tid := 2, reg := 0x90 }])
              [0, 0, 0, 0, 1, 1, 1, 1, 0, 1]
         (c.2.map fun t => (t.ret, t.val)) = [(some 0, some (ramp 1)), (some 0, some (ramp 1))]
           ∧ c.1.wire.map (fun x => x.tx.b1) = [0x80, 0x90])
      ∧ (let c := run_schedule (adc_bus ramp)
              (fresh, [{ tid := 1, reg := 0x80 }, { tid := 2, reg := 0x90 }])
              [0, 0, 0, 0, 0, 1, 1, 1, 1, 1]
         (c.2.map fun t => (t.ret, t.val)) = [(some 0, some (ramp 0)), (some 0, some (ramp 1))])
      ∧ (let c := run_schedule (adc_bus ramp)
              (fresh, [{ tid := 1, reg := 0x80 }, { tid := 2, reg := 0x90 }])
              [1, 1, 1, 1, 1, 0, 0, 0, 0, 0]
         (c.2.map fun t => (t.ret, t.val)) = [(some 0, some (ramp 0)), (some 0, some (ramp 1))]) := by
  refine ⟨?_, by decide, by decide, by decide, by decide, by decide⟩
  intro bus tid reg
  by_cases he : (bus fresh.wire (xfer_of fresh reg)).err = 0
  · simp [mcp3008_spi_reg_read, store_tx1, mutex_lock, spi_sync, mutex_unlock, load_sample,
      xfer_of, fresh, lock_discipline] at he ⊢
    simp [he, lock_discipline]
  · simp [mcp3008_spi_reg_read, store_tx1, mutex_lock, spi_sync, mutex_unlock, load_sample,
      xfer_of, fresh, lock_discipline] at he ⊢
    simp [he, lock_discipline]

/-- One caller stepped alone through its five statements does what
`mcp3008_spi_reg_read` does. -/
theorem reader_alone (bus : spi_bus) (tid reg : Nat) (s : machine) (r : reg_result)
    (h : mcp3008_spi_reg_read bus tid s reg = some r) :
    run_schedule bus (s, [{ tid := tid, reg := reg }]) [0, 0, 0, 0, 0]
      = (r.sys, [{ tid := tid, reg := reg, pc := 5, err := r.ret, ret := some r.ret,
                   val := r.val }]) := by
  cases hl : s.mcp.lock with
  | some o => simp [mcp3008_spi_reg_read, store_tx1, mutex_lock, hl] at h
  | none =>
    by_cases he : (bus s.wire (xfer_of s reg)).err = 0
    · simp [mcp3008_spi_reg_read, store_tx1, mutex_lock, hl, spi_sync, mutex_unlock, load_sample,
        xfer_of] at he h
      simp [he] at h
      subst h
      simp [run_schedule, sched_step, reader_step, store_tx1, mutex_lock, hl, spi_sync,
        mutex_unlock, load_sample, he]
    · simp [mcp3008_spi_reg_read, store_tx1, mutex_lock, hl, spi_sync, mutex_unlock, load_sample,
        xfer_of] at he h
      simp [he] at h
      subst h
      simp [run_schedule, sched_step, reader_step, store_tx1, mutex_lock, hl, spi_sync,
        mutex_unlock, load_sample, he]

end MCP3008
